import Mathlib

/-!
Verification development for the recursive research orchestrator in
`src/deep_research.py` of the `deepresearcy-python` repository.

The orchestrator's external collaborators (the structured-completion LLM
behind `client.responses.parse`, and the web crawler behind
`web_crawler.search`) are modelled as an oracle record `Services`: pure
functions from exactly the data the source passes to them to the parsed
values the source reads back.  All theorems quantify over the oracle (or
exhibit a concrete one for counterexamples), so they hold for every
behaviour of the external services.

Python integers are modelled as `Int` (Python `//` is `Int.fdiv`, floor
division; the Python slice `l[:n]` is `pySlice`).  A Python `set`
comprehension turned back into a `list` (line 475/476 of the source) is
modelled with `List.dedup`; the iteration order of a Python `set` is
unspecified, and every property proved below about the deduplicated
lists is order-independent (membership, duplicate counts, `Nodup`).
-/

namespace DeepResearch

/-- One search-result item, as produced by every crawler in
`crawler_factory.py`: a dict `{title, description, url}`. -/
structure SearchItem where
  title : String
  description : String
  url : String
deriving DecidableEq, Repr

/-- The object returned by `web_crawler.search`: `SimpleNamespace(data=items)`. -/
structure SearchResult where
  data : List SearchItem
deriving DecidableEq, Repr

/-- Schema `QueryEntry` (source lines 72-92): one planned SERP query. -/
structure QueryEntry where
  query : String
  researchGoal : String
deriving DecidableEq, Repr

/-- Schema `ProcResponse` (source lines 101-112): distilled learnings and
follow-up questions. -/
structure ProcResponse where
  learnings : List String
  followUpQuestions : List String
deriving DecidableEq, Repr

/-- Dataclass `ResearchResult` (source lines 66-69). -/
structure ResearchResult where
  learnings : List String
  visited_urls : List String
deriving DecidableEq, Repr

/-- Oracle for the external services.  `planQueries` is the parsed
`QueryList.queries` the structured-completion service returns inside
`generate_serp_queries` (its prompt is built from the query, the requested
count and the learnings, source lines 186-205); `search` is
`web_crawler.search(query, limit)` (line 416); `distill` is the parsed
`ProcResponse` returned inside `process_serp_result` (its prompt is built
from the query, the search result descriptions and the requested count,
source lines 220-250). -/
structure Services where
  planQueries : String → Int → List String → List QueryEntry
  search : String → Int → SearchResult
  distill : String → SearchResult → Int → ProcResponse

/-- Python list slice `l[:n]` for an `Int` bound `n`: nonnegative `n`
takes the first `n` elements (clamped at the length); negative `n` stops
`-n` elements before the end (clamped at zero). -/
def pySlice (n : Int) (l : List α) : List α :=
  if 0 ≤ n then l.take n.toNat else l.take ((l.length : Int) + n).toNat

/-- Source lines 180-211: ask the completion service for queries and
truncate with the Python slice `[:num_queries]` (line 211). -/
def generate_serp_queries (svc : Services) (query : String) (num_queries : Int)
    (learnings : List String) : List QueryEntry :=
  pySlice num_queries (svc.planQueries query num_queries learnings)

/-- Source lines 214-263: build the prompt from the result descriptions and
return the parsed learnings and follow-up questions.  Note: unlike
`generate_serp_queries`, the source applies no truncation to the returned
lists (lines 260-263 return `parsed.learnings` / `parsed.followUpQuestions`
as-is). -/
def process_serp_result (svc : Services) (query : String)
    (search_result : SearchResult) (num_learnings : Int) : ProcResponse :=
  svc.distill query search_result num_learnings

/-- The follow-up query string built before recursing (source lines 438-441). -/
def nextQuery (serp : QueryEntry) (followUps : List String) : String :=
  "Previous research goal: " ++ serp.researchGoal ++ "\n"
    ++ String.intercalate "\n" (followUps.map (fun q => "- " ++ q))

/-- Source lines 474-478: merge the branch results, deduplicating learnings
and URLs with a set comprehension. -/
def mergeResults (results : List ResearchResult) : ResearchResult :=
  { learnings := ((results.map ResearchResult.learnings).flatten).dedup
    visited_urls := ((results.map ResearchResult.visited_urls).flatten).dedup }

mutual

/-- Source lines 409-469, the coroutine `handle_one` closed over one
`deep_research` invocation's `breadth`, `depth`, `learnings` and
`visited_urls`: search with `limit=breadth` (line 416), distill with
`num_learnings=breadth` (lines 421-425), accumulate by list concatenation
(lines 433-434), then either recurse with halved breadth and decremented
depth (lines 437-460) or return the leaf result (line 469). -/
def handle_one (svc : Services) (breadth depth : Int)
    (learnings visited_urls : List String) (serp : QueryEntry) : ResearchResult :=
  let search_result := svc.search serp.query breadth
  let new_urls := search_result.data.map SearchItem.url
  let proc := process_serp_result svc serp.query search_result breadth
  let all_learnings := learnings ++ proc.learnings
  let all_urls := visited_urls ++ new_urls
  if 0 < depth - 1 then
    deep_research svc (nextQuery serp proc.followUpQuestions)
      (Int.fdiv breadth 2) (depth - 1) all_learnings all_urls
  else
    { learnings := all_learnings, visited_urls := all_urls }
termination_by (depth.toNat, 0, 0)

/-- Source line 472: one `handle_one` result per planned query.  The
source dispatches them with `asyncio.gather`, which returns the results
in the order of the input list; the branch bodies share no state apart
from the progress object (modelled separately), so the gathered value is
this list. -/
def research_branches (svc : Services) (breadth depth : Int)
    (learnings visited_urls : List String) : List QueryEntry → List ResearchResult
  | [] => []
  | serp :: rest =>
      handle_one svc breadth depth learnings visited_urls serp ::
        research_branches svc breadth depth learnings visited_urls rest
termination_by qs => (depth.toNat, 1, qs.length)

/-- Source lines 329-478, `deep_research`: plan queries, run all branches,
merge with deduplication. -/
def deep_research (svc : Services) (query : String) (breadth depth : Int)
    (learnings visited_urls : List String) : ResearchResult :=
  mergeResults (research_branches svc breadth depth learnings visited_urls
    (generate_serp_queries svc query breadth learnings))
termination_by (depth.toNat, 2, 0)

end

/-- Record of the external calls an invocation subtree performs, used to
state which services are invoked, with which arguments, and which
recursive invocations occur.  `plans` records `(query, num_queries)` per
`generate_serp_queries` call (line 400); `searches` records
`(query, limit)` per `web_crawler.search` call (line 416); `distills`
records `(query, num_learnings)` per `process_serp_result` call (lines
421-425); `invocations` records `(breadth, depth)` per `deep_research`
entry, the top-level one included. -/
structure Trace where
  plans : List (String × Int)
  searches : List (String × Int)
  distills : List (String × Int)
  invocations : List (Int × Int)
deriving DecidableEq, Repr

/-- Concatenation of traces, in execution order. -/
def Trace.cat (t u : Trace) : Trace :=
  { plans := t.plans ++ u.plans
    searches := t.searches ++ u.searches
    distills := t.distills ++ u.distills
    invocations := t.invocations ++ u.invocations }

/-- The empty trace. -/
def Trace.nil : Trace := { plans := [], searches := [], distills := [], invocations := [] }

mutual

/-- External calls performed by one `handle_one` branch: its search
(line 416, with `limit = breadth`), its distillation (lines 421-425, with
`num_learnings = breadth`), and, when `depth - 1 > 0`, everything the
recursive `deep_research` call performs.  The recursive trace receives
the same accumulated lists that the source passes (lines 453-460), so
the recorded oracle arguments match `handle_one` exactly. -/
def handle_one_trace (svc : Services) (breadth depth : Int)
    (learnings visited_urls : List String) (serp : QueryEntry) : Trace :=
  let search_result := svc.search serp.query breadth
  let new_urls := search_result.data.map SearchItem.url
  let proc := process_serp_result svc serp.query search_result breadth
  let own : Trace :=
    { plans := [], searches := [(serp.query, breadth)]
      distills := [(serp.query, breadth)], invocations := [] }
  if 0 < depth - 1 then
    own.cat (research_trace svc (nextQuery serp proc.followUpQuestions)
      (Int.fdiv breadth 2) (depth - 1) (learnings ++ proc.learnings)
      (visited_urls ++ new_urls))
  else
    own
termination_by (depth.toNat, 0, 0)

/-- Traces of all branches of one invocation, in list order. -/
def branches_trace (svc : Services) (breadth depth : Int)
    (learnings visited_urls : List String) : List QueryEntry → Trace
  | [] => Trace.nil
  | serp :: rest =>
      (handle_one_trace svc breadth depth learnings visited_urls serp).cat
        (branches_trace svc breadth depth learnings visited_urls rest)
termination_by qs => (depth.toNat, 1, qs.length)

/-- External calls performed by one `deep_research` invocation and its
whole subtree: its own entry, its planner call (line 400), then its
branches. -/
def research_trace (svc : Services) (query : String) (breadth depth : Int)
    (learnings visited_urls : List String) : Trace :=
  (Trace.cat
    { plans := [(query, breadth)], searches := [], distills := []
      invocations := [(breadth, depth)] }
    (branches_trace svc breadth depth learnings visited_urls
      (generate_serp_queries svc query breadth learnings)))
termination_by (depth.toNat, 2, 0)

end

mutual

/-- Fuel-bounded variant of `deep_research`, used to state termination:
it performs exactly the same computation but gives up (returns `none`)
when the nesting of recursive `deep_research` calls exceeds the fuel.
`fuel_suffices_for_depth` below shows `depth.toNat + 1` units of fuel
always suffice, i.e. the recursion depth of the source function is
bounded by its `depth` argument. -/
def research_fuel (svc : Services) (fuel : Nat) (query : String)
    (breadth depth : Int) (learnings visited_urls : List String) :
    Option ResearchResult :=
  match fuel with
  | 0 => none
  | fuel + 1 =>
      match branches_fuel svc fuel breadth depth learnings visited_urls
        (generate_serp_queries svc query breadth learnings) with
      | none => none
      | some results => some (mergeResults results)
termination_by (fuel, 0, 0)

/-- Fuel-bounded branches: each branch either returns its leaf result or
recurses through `research_fuel` with the given fuel. -/
def branches_fuel (svc : Services) (fuel : Nat) (breadth depth : Int)
    (learnings visited_urls : List String) :
    List QueryEntry → Option (List ResearchResult)
  | [] => some []
  | serp :: rest =>
      let search_result := svc.search serp.query breadth
      let new_urls := search_result.data.map SearchItem.url
      let proc := process_serp_result svc serp.query search_result breadth
      let first : Option ResearchResult :=
        if 0 < depth - 1 then
          research_fuel svc fuel (nextQuery serp proc.followUpQuestions)
            (Int.fdiv breadth 2) (depth - 1) (learnings ++ proc.learnings)
            (visited_urls ++ new_urls)
        else
          some { learnings := learnings ++ proc.learnings
                 visited_urls := visited_urls ++ new_urls }
      match first, branches_fuel svc fuel breadth depth learnings visited_urls rest with
      | some r, some rs => some (r :: rs)
      | _, _ => none
termination_by qs => (fuel, 1, qs.length)

end

/-- Initial value of `ResearchProgress.completed_queries` (dataclass
default `completed_queries: int = 0`, source line 62). -/
def completed_queries_init : Nat := 0

/-- Value assigned to `progress.total_queries` at source line 401: the
number of planned queries of this invocation's level. -/
def total_queries_init (svc : Services) (query : String) (breadth : Int)
    (learnings : List String) : Nat :=
  (generate_serp_queries svc query breadth learnings).length

/-- The only mutation the source ever applies to
`progress.completed_queries`: the increment `+= 1`, performed by each
branch exactly once, at line 444 on the recursion path or at line 463 on
the leaf path (each recursive `deep_research` call builds its own fresh
`ResearchProgress`, so child invocations never touch this counter). -/
def branch_complete (completed : Nat) : Nat := completed + 1

/-- Number of `completed_queries` increments one `handle_one` branch
performs on its own invocation's progress object: one on either path
(line 444 when recursing, line 463 at a leaf). -/
def handle_one_completed_increments (depth : Int) : Nat :=
  if 0 < depth - 1 then 1 else 1

/-- Total number of increments applied to one invocation's
`completed_queries` over its lifetime: the sum over its branches. -/
def invocation_total_increments (svc : Services) (query : String)
    (breadth depth : Int) (learnings : List String) : Nat :=
  ((generate_serp_queries svc query breadth learnings).map
    (fun _ => handle_one_completed_increments depth)).sum

/-- The counter value after `k` of the increments have executed.  The
branches run concurrently, but every write to the counter is the same
read-increment step `branch_complete`, so after any interleaving of `k`
completed increments the value is `branch_complete^[k] 0`. -/
def completed_after (k : Nat) : Nat :=
  branch_complete^[k] completed_queries_init

/-! Helper lemmas. -/

theorem pySlice_of_nonneg {n : Int} (h : 0 ≤ n) (l : List α) :
    pySlice n l = l.take n.toNat := by
  simp [pySlice, h]

theorem pySlice_zero (l : List α) : pySlice 0 l = [] := by
  simp [pySlice]

theorem length_pySlice_le {n : Int} (h : 0 ≤ n) (l : List α) :
    ((pySlice n l).length : Int) ≤ n := by
  rw [pySlice_of_nonneg h]
  have := List.length_take_le n.toNat l
  omega

theorem pySlice_ne_nil {n : Int} (h : 1 ≤ n) {l : List α} (hl : l ≠ []) :
    pySlice n l ≠ [] := by
  rw [pySlice_of_nonneg (by omega)]
  cases l with
  | nil => exact absurd rfl hl
  | cons a t =>
      have h1 : 1 ≤ n.toNat := by omega
      intro hcon
      have := congrArg List.length hcon
      simp at this
      omega

theorem fdiv_two_eq_ediv (a : Int) : Int.fdiv a 2 = a / 2 :=
  Int.fdiv_eq_ediv a (by decide)

theorem toNat_fdiv_two {a : Int} (h : 0 ≤ a) :
    (Int.fdiv a 2).toNat = a.toNat / 2 := by
  rw [fdiv_two_eq_ediv]
  omega

theorem fdiv_two_nonneg {a : Int} (h : 0 ≤ a) : 0 ≤ Int.fdiv a 2 := by
  rw [fdiv_two_eq_ediv]; omega

theorem research_branches_eq (svc : Services) (b d : Int) (L U : List String)
    (qs : List QueryEntry) :
    research_branches svc b d L U qs = qs.map (handle_one svc b d L U) := by
  induction qs with
  | nil => rw [research_branches]; rfl
  | cons serp rest ih => rw [research_branches, ih]; rfl

theorem deep_research_def (svc : Services) (q : String) (b d : Int)
    (L U : List String) :
    deep_research svc q b d L U =
      mergeResults ((generate_serp_queries svc q b L).map (handle_one svc b d L U)) := by
  rw [deep_research, research_branches_eq]

theorem handle_one_leaf (svc : Services) {b d : Int} (L U : List String)
    (serp : QueryEntry) (h : d - 1 ≤ 0) :
    handle_one svc b d L U serp =
      { learnings :=
          L ++ (process_serp_result svc serp.query (svc.search serp.query b) b).learnings
        visited_urls :=
          U ++ (svc.search serp.query b).data.map SearchItem.url } := by
  simp only [handle_one]
  rw [if_neg (by omega : ¬ (0:Int) < d - 1)]

theorem handle_one_recurse (svc : Services) {b d : Int} (L U : List String)
    (serp : QueryEntry) (h : 0 < d - 1) :
    handle_one svc b d L U serp =
      deep_research svc
        (nextQuery serp
          (process_serp_result svc serp.query (svc.search serp.query b) b).followUpQuestions)
        (Int.fdiv b 2) (d - 1)
        (L ++ (process_serp_result svc serp.query (svc.search serp.query b) b).learnings)
        (U ++ (svc.search serp.query b).data.map SearchItem.url) := by
  simp only [handle_one]
  rw [if_pos h]

theorem mem_mergeResults_learnings {x : String} {rs : List ResearchResult} :
    x ∈ (mergeResults rs).learnings ↔ ∃ r ∈ rs, x ∈ r.learnings := by
  simp [mergeResults, List.mem_dedup, List.mem_flatten]

theorem mem_mergeResults_urls {x : String} {rs : List ResearchResult} :
    x ∈ (mergeResults rs).visited_urls ↔ ∃ r ∈ rs, x ∈ r.visited_urls := by
  simp [mergeResults, List.mem_dedup, List.mem_flatten]

theorem mergeResults_learnings_nodup (rs : List ResearchResult) :
    (mergeResults rs).learnings.Nodup :=
  List.nodup_dedup _

theorem mergeResults_urls_nodup (rs : List ResearchResult) :
    (mergeResults rs).visited_urls.Nodup :=
  List.nodup_dedup _

theorem count_eq_one_of_nodup_mem {l : List String} {a : String}
    (hn : l.Nodup) (hm : a ∈ l) : l.count a = 1 := by
  have h1 : l.count a ≤ 1 := List.nodup_iff_count_le_one.mp hn a
  have h2 : 0 < l.count a := List.count_pos_iff.mpr hm
  omega

theorem handle_one_trace_leaf (svc : Services) {b d : Int} (L U : List String)
    (serp : QueryEntry) (h : d - 1 ≤ 0) :
    handle_one_trace svc b d L U serp =
      { plans := [], searches := [(serp.query, b)]
        distills := [(serp.query, b)], invocations := [] } := by
  simp only [handle_one_trace]
  rw [if_neg (by omega : ¬ (0:Int) < d - 1)]

theorem handle_one_trace_recurse (svc : Services) {b d : Int} (L U : List String)
    (serp : QueryEntry) (h : 0 < d - 1) :
    handle_one_trace svc b d L U serp =
      Trace.cat
        { plans := [], searches := [(serp.query, b)]
          distills := [(serp.query, b)], invocations := [] }
        (research_trace svc
          (nextQuery serp
            (process_serp_result svc serp.query (svc.search serp.query b) b).followUpQuestions)
          (Int.fdiv b 2) (d - 1)
          (L ++ (process_serp_result svc serp.query (svc.search serp.query b) b).learnings)
          (U ++ (svc.search serp.query b).data.map SearchItem.url)) := by
  simp only [handle_one_trace]
  rw [if_pos h]

theorem research_trace_def (svc : Services) (q : String) (b d : Int)
    (L U : List String) :
    research_trace svc q b d L U =
      Trace.cat
        { plans := [(q, b)], searches := [], distills := []
          invocations := [(b, d)] }
        (branches_trace svc b d L U (generate_serp_queries svc q b L)) := by
  rw [research_trace]

theorem branches_trace_invocations (svc : Services) (b d : Int)
    (L U : List String) (qs : List QueryEntry) :
    (branches_trace svc b d L U qs).invocations =
      (qs.map (fun serp => (handle_one_trace svc b d L U serp).invocations)).flatten := by
  induction qs with
  | nil => rw [branches_trace]; rfl
  | cons serp rest ih => rw [branches_trace]; simp [Trace.cat, ih]

theorem branches_trace_searches (svc : Services) (b d : Int)
    (L U : List String) (qs : List QueryEntry) :
    (branches_trace svc b d L U qs).searches =
      (qs.map (fun serp => (handle_one_trace svc b d L U serp).searches)).flatten := by
  induction qs with
  | nil => rw [branches_trace]; rfl
  | cons serp rest ih => rw [branches_trace]; simp [Trace.cat, ih]

theorem branches_trace_distills (svc : Services) (b d : Int)
    (L U : List String) (qs : List QueryEntry) :
    (branches_trace svc b d L U qs).distills =
      (qs.map (fun serp => (handle_one_trace svc b d L U serp).distills)).flatten := by
  induction qs with
  | nil => rw [branches_trace]; rfl
  | cons serp rest ih => rw [branches_trace]; simp [Trace.cat, ih]

theorem branches_trace_plans (svc : Services) (b d : Int)
    (L U : List String) (qs : List QueryEntry) :
    (branches_trace svc b d L U qs).plans =
      (qs.map (fun serp => (handle_one_trace svc b d L U serp).plans)).flatten := by
  induction qs with
  | nil => rw [branches_trace]; rfl
  | cons serp rest ih => rw [branches_trace]; simp [Trace.cat, ih]

theorem div_two_shiftRight (m k : ℕ) : (m / 2) >>> k = m >>> (k + 1) := by
  simp only [Nat.shiftRight_eq_div_pow, Nat.div_div_eq_div_mul, pow_succ]
  rw [Nat.mul_comm]

/-- Every `(breadth, depth)` pair of an invocation in the recursion tree
rooted at `(b, d)` is `(b >> k, d - k)` for the recursion level `k` of
that invocation. -/
theorem invocations_shape (svc : Services) :
    ∀ (n : ℕ) (q : String) (b d : Int) (L U : List String), d.toNat ≤ n → 0 ≤ b →
      ∀ bd ∈ (research_trace svc q b d L U).invocations,
        ∃ k : ℕ, bd.2 = d - (k : Int) ∧ bd.1 = ((b.toNat >>> k : ℕ) : Int) := by
  intro n
  induction n using Nat.strong_induction_on with
  | _ n ih =>
    intro q b d L U hdn hb bd hbd
    rw [research_trace_def] at hbd
    simp only [Trace.cat, List.mem_append, List.mem_singleton] at hbd
    rcases hbd with hbd | hbd
    · refine ⟨0, ?_, ?_⟩
      · simp [hbd]
      · simp [hbd, Int.toNat_of_nonneg hb]
    · rw [branches_trace_invocations] at hbd
      simp only [List.mem_flatten, List.mem_map] at hbd
      obtain ⟨_, ⟨serp, _, rfl⟩, hmem⟩ := hbd
      by_cases hd : 0 < d - 1
      · rw [handle_one_trace_recurse svc L U serp hd] at hmem
        simp only [Trace.cat, List.nil_append] at hmem
        have hdn' : (d - 1).toNat < n := by omega
        obtain ⟨k, hk2, hk1⟩ :=
          ih (d - 1).toNat hdn' _ (Int.fdiv b 2) (d - 1) _ _ le_rfl
            (fdiv_two_nonneg hb) bd hmem
        refine ⟨k + 1, ?_, ?_⟩
        · rw [hk2]; push_cast; ring
        · rw [hk1, toNat_fdiv_two hb, div_two_shiftRight]
      · rw [handle_one_trace_leaf svc L U serp (by omega)] at hmem
        simp at hmem

/-- Every `web_crawler.search` call in the recursion tree is made with
`limit` equal to the breadth of the invocation performing it. -/
theorem searches_use_invocation_breadth (svc : Services) :
    ∀ (n : ℕ) (q : String) (b d : Int) (L U : List String), d.toNat ≤ n →
      ∀ s ∈ (research_trace svc q b d L U).searches,
        ∃ bd ∈ (research_trace svc q b d L U).invocations, s.2 = bd.1 := by
  intro n
  induction n using Nat.strong_induction_on with
  | _ n ih =>
    intro q b d L U hdn s hs
    have hhead : (b, d) ∈ (research_trace svc q b d L U).invocations := by
      rw [research_trace_def]
      simp [Trace.cat]
    rw [research_trace_def] at hs
    simp only [Trace.cat, List.nil_append] at hs
    rw [branches_trace_searches] at hs
    simp only [List.mem_flatten, List.mem_map] at hs
    obtain ⟨_, ⟨serp, hserp, rfl⟩, hmem⟩ := hs
    by_cases hd : 0 < d - 1
    · rw [handle_one_trace_recurse svc L U serp hd] at hmem
      simp only [Trace.cat, List.singleton_append, List.mem_cons] at hmem
      rcases hmem with hmem | hmem
      · exact ⟨(b, d), hhead, by rw [hmem]⟩
      · have hdn' : (d - 1).toNat < n := by omega
        obtain ⟨bd, hbdmem, heq⟩ :=
          ih (d - 1).toNat hdn' _ (Int.fdiv b 2) (d - 1) _ _ le_rfl s hmem
        refine ⟨bd, ?_, heq⟩
        rw [research_trace_def]
        simp only [Trace.cat, List.singleton_append, List.mem_cons]
        right
        rw [branches_trace_invocations]
        simp only [List.mem_flatten, List.mem_map]
        refine ⟨_, ⟨serp, hserp, rfl⟩, ?_⟩
        rw [handle_one_trace_recurse svc L U serp hd]
        simpa [Trace.cat] using hbdmem
    · rw [handle_one_trace_leaf svc L U serp (by omega)] at hmem
      simp only [List.mem_singleton] at hmem
      exact ⟨(b, d), hhead, by rw [hmem]⟩

/-- When the planner never returns an empty list for a positive requested
count and the initial breadth is at least `2 ^ (depth - 1)` (so the
halved breadth stays positive down to the leaves), every invocation
returns a superset of the learnings and visited URLs passed into it. -/
theorem deep_research_superset_aux (svc : Services)
    (hplan : ∀ q n l, 1 ≤ n → svc.planQueries q n l ≠ []) :
    ∀ (n : ℕ) (q : String) (b d : Int) (L U : List String), d.toNat ≤ n →
      (2 : Int) ^ (d.toNat - 1) ≤ b →
      (∀ x ∈ L, x ∈ (deep_research svc q b d L U).learnings) ∧
      (∀ u ∈ U, u ∈ (deep_research svc q b d L U).visited_urls) := by
  intro n
  induction n using Nat.strong_induction_on with
  | _ n ih =>
    intro q b d L U hdn hB
    have hpow : (0 : Int) < 2 ^ (d.toNat - 1) := by positivity
    have hb1 : 1 ≤ b := by omega
    have hraw : svc.planQueries q b L ≠ [] := hplan q b L hb1
    have hqs : generate_serp_queries svc q b L ≠ [] := by
      rw [generate_serp_queries]
      exact pySlice_ne_nil hb1 hraw
    obtain ⟨serp, rest, hcons⟩ := List.exists_cons_of_ne_nil hqs
    have hserp : serp ∈ generate_serp_queries svc q b L := by
      rw [hcons]; exact List.mem_cons_self serp rest
    have hbranch :
        (∀ x ∈ L, x ∈ (handle_one svc b d L U serp).learnings) ∧
        (∀ u ∈ U, u ∈ (handle_one svc b d L U serp).visited_urls) := by
      by_cases hd : 0 < d - 1
      · rw [handle_one_recurse svc L U serp hd]
        have hdn' : (d - 1).toNat < n := by omega
        have hB' : (2 : Int) ^ ((d - 1).toNat - 1) ≤ Int.fdiv b 2 := by
          have hE : (2 : Int) ^ (d.toNat - 1) = 2 * 2 ^ ((d - 1).toNat - 1) := by
            rw [← pow_succ']
            congr 1
            omega
          rw [fdiv_two_eq_ediv]
          omega
        have hih := ih (d - 1).toNat hdn'
          (nextQuery serp
            (process_serp_result svc serp.query (svc.search serp.query b) b).followUpQuestions)
          (Int.fdiv b 2) (d - 1)
          (L ++ (process_serp_result svc serp.query (svc.search serp.query b) b).learnings)
          (U ++ (svc.search serp.query b).data.map SearchItem.url)
          le_rfl hB'
        refine ⟨fun x hx => hih.1 x ?_, fun u hu => hih.2 u ?_⟩
        · exact List.mem_append_left _ hx
        · exact List.mem_append_left _ hu
      · rw [handle_one_leaf svc L U serp (by omega)]
        exact ⟨fun x hx => List.mem_append_left _ hx,
          fun u hu => List.mem_append_left _ hu⟩
    rw [deep_research_def]
    constructor
    · intro x hx
      rw [mem_mergeResults_learnings]
      exact ⟨handle_one svc b d L U serp,
        List.mem_map_of_mem _ hserp, hbranch.1 x hx⟩
    · intro u hu
      rw [mem_mergeResults_urls]
      exact ⟨handle_one svc b d L U serp,
        List.mem_map_of_mem _ hserp, hbranch.2 u hu⟩

/-- Fuel `n > depth` always suffices: the nesting of recursive
`deep_research` calls is bounded by the depth budget, so the source
recursion terminates for every oracle. -/
theorem fuel_suffices_for_depth (svc : Services) :
    ∀ (n : ℕ) (q : String) (b d : Int) (L U : List String), d.toNat < n →
      research_fuel svc n q b d L U = some (deep_research svc q b d L U) := by
  intro n
  induction n with
  | zero => intro q b d L U h; omega
  | succ n ihn =>
    intro q b d L U h
    have hbr : ∀ qs : List QueryEntry,
        branches_fuel svc n b d L U qs = some (research_branches svc b d L U qs) := by
      intro qs
      induction qs with
      | nil => rw [branches_fuel, research_branches]
      | cons serp rest ihq =>
        rw [branches_fuel, research_branches, ihq]
        by_cases hd : 0 < d - 1
        · rw [if_pos hd]
          have hrec := ihn
            (nextQuery serp
              (process_serp_result svc serp.query (svc.search serp.query b) b).followUpQuestions)
            (Int.fdiv b 2) (d - 1)
            (L ++ (process_serp_result svc serp.query (svc.search serp.query b) b).learnings)
            (U ++ (svc.search serp.query b).data.map SearchItem.url)
            (by omega)
          rw [hrec, handle_one_recurse svc L U serp hd]
        · rw [if_neg hd, handle_one_leaf svc L U serp (by omega)]
    rw [research_fuel]
    simp only [hbr]
    rw [deep_research]

theorem flatten_map_singleton (f : α → β) (l : List α) :
    (l.map (fun a => [f a])).flatten = l.map f := by
  induction l with
  | nil => rfl
  | cons a t ih => simp [ih]

/-- At the leaf level (`depth - 1 ≤ 0`) each branch contributes exactly
its own search and its own distillation, and no recursive invocation. -/
theorem branches_trace_leaf (svc : Services) {b d : Int}
    (L U : List String) (qs : List QueryEntry) (h : d - 1 ≤ 0) :
    branches_trace svc b d L U qs =
      { plans := []
        searches := qs.map (fun serp => (serp.query, b))
        distills := qs.map (fun serp => (serp.query, b))
        invocations := [], } := by
  induction qs with
  | nil => rw [branches_trace]; rfl
  | cons serp rest ih =>
      rw [branches_trace, ih, handle_one_trace_leaf svc L U serp h]
      simp [Trace.cat]

theorem completed_after_eq (k : ℕ) : completed_after k = k := by
  induction k with
  | zero => rfl
  | succ k ih =>
      rw [completed_after, Function.iterate_succ_apply'] at *
      rw [ih, branch_complete]

theorem sum_map_one (l : List α) : (l.map (fun _ => 1)).sum = l.length := by
  induction l with
  | nil => rfl
  | cons a t ih => simp [ih]; omega

theorem invocation_total_increments_eq (svc : Services) (q : String)
    (b d : Int) (L : List String) :
    invocation_total_increments svc q b d L = total_queries_init svc q b L := by
  rw [invocation_total_increments, total_queries_init]
  have hone : handle_one_completed_increments d = 1 := by
    rw [handle_one_completed_increments]; exact ite_self 1
  rw [hone]
  exact sum_map_one _

/-! Concrete oracle behaviours, used as witnesses and counterexamples.
Each is one possible behaviour of the external services (the
structured-completion service may return any value of the target schema,
and the crawler any result list). -/

/-- Oracle whose planner always returns zero queries. -/
def svcNone : Services :=
  { planQueries := fun _ _ _ => []
    search := fun _ _ => { data := [] }
    distill := fun _ _ _ => { learnings := [], followUpQuestions := [] } }

/-- Oracle with one planned query, one search hit and one learning. -/
def svcOne : Services :=
  { planQueries := fun _ _ _ => [{ query := "q1", researchGoal := "g1" }]
    search := fun _ _ => { data := [{ title := "t1", description := "d1", url := "u1" }] }
    distill := fun _ _ _ => { learnings := ["l1"], followUpQuestions := ["f1"] } }

/-- Oracle with two planned queries whose branches rediscover the same
learning `"x"` and the same URL `"u1"`. -/
def svcTwo : Services :=
  { planQueries := fun _ _ _ =>
      [{ query := "q1", researchGoal := "g1" }, { query := "q2", researchGoal := "g2" }]
    search := fun _ _ => { data := [{ title := "t1", description := "d1", url := "u1" }] }
    distill := fun _ _ _ => { learnings := ["x"], followUpQuestions := [] } }

/-- Oracle whose distiller returns the learning `"a"`, which can duplicate
an accumulated learning. -/
def svcDup : Services :=
  { planQueries := fun _ _ _ => [{ query := "q1", researchGoal := "g1" }]
    search := fun _ _ => { data := [] }
    distill := fun _ _ _ => { learnings := ["a"], followUpQuestions := [] } }

/-- Oracle whose distiller returns four learnings regardless of the
requested maximum. -/
def svcFour : Services :=
  { planQueries := fun _ _ _ => []
    search := fun _ _ => { data := [] }
    distill := fun _ _ _ => { learnings := ["a", "b", "c", "d"], followUpQuestions := [] } }

/-! Claims. -/

/-- C1, counterexample: the returned learnings are NOT always a superset
of the learnings passed in.  With an oracle whose planner returns zero
queries, `deep_research` called with accumulated learnings `["a"]` and
visited urls `["b"]` returns the empty result, dropping both. -/
theorem c1_counterexample :
    ("a" ∈ (["a"] : List String)) ∧ ("b" ∈ (["b"] : List String)) ∧
    deep_research svcNone "q" 1 1 ["a"] ["b"] = { learnings := [], visited_urls := [] } ∧
    "a" ∉ (deep_research svcNone "q" 1 1 ["a"] ["b"]).learnings ∧
    "b" ∉ (deep_research svcNone "q" 1 1 ["a"] ["b"]).visited_urls := by
  have h : deep_research svcNone "q" 1 1 ["a"] ["b"] = { learnings := [], visited_urls := [] } := by
    simp [deep_research, research_branches, generate_serp_queries, svcNone, pySlice, mergeResults]
  refine ⟨by simp, by simp, h, ?_, ?_⟩ <;> rw [h] <;> simp

/-- C1, amended: provided the planner never returns an empty query list
for a positive requested count, and the initial breadth is at least
`2 ^ (depth - 1)` (so the halved breadth stays positive at every level
above the leaves), every invocation returns learnings and visited_urls
that are supersets of the lists passed in.  When some planner call in the
subtree yields zero queries (as the counterexample exhibits), the
invocation instead returns the empty result and the superset property
fails. -/
theorem c1_superset (svc : Services)
    (hplan : ∀ q n l, 1 ≤ n → svc.planQueries q n l ≠ [])
    (q : String) (B D : Int) (L U : List String)
    (hB : (2 : Int) ^ (D.toNat - 1) ≤ B) :
    (∀ x ∈ L, x ∈ (deep_research svc q B D L U).learnings) ∧
    (∀ u ∈ U, u ∈ (deep_research svc q B D L U).visited_urls) :=
  deep_research_superset_aux svc hplan D.toNat q B D L U le_rfl hB

/-- C1, witness for the amended theorem at breadth 2, depth 2. -/
theorem c1_witness :
    (∀ x ∈ (["a"] : List String), x ∈ (deep_research svcOne "q" 2 2 ["a"] ["b"]).learnings) ∧
    (∀ u ∈ (["b"] : List String), u ∈ (deep_research svcOne "q" 2 2 ["a"] ["b"]).visited_urls) :=
  c1_superset svcOne (fun q n l _ => by simp [svcOne]) "q" 2 2 ["a"] ["b"] (by decide)

/-- C2: with the services modelled as (arbitrary) terminating oracles,
`deep_research` run at breadth `B ≥ 1`, depth `D ≥ 0` is computed by the
fuel-bounded variant with `D.toNat + 1` units of fuel, i.e. the nesting
of recursive calls never exceeds the depth budget; moreover when the
breadth reaches 0 the planner step yields the empty query list (the
Python slice `[:0]` empties whatever the completion service returned)
and that invocation returns the empty result with no further recursive
invocation. -/
theorem c2_termination (svc : Services) (q : String) (B D : Int)
    (L U : List String) (hB : 1 ≤ B) (hD : 0 ≤ D) :
    research_fuel svc (D.toNat + 1) q B D L U = some (deep_research svc q B D L U) ∧
    (∀ (q' : String) (l' : List String), generate_serp_queries svc q' 0 l' = []) ∧
    (∀ (q' : String) (d' : Int) (L' U' : List String),
      deep_research svc q' 0 d' L' U' = { learnings := [], visited_urls := [] }) ∧
    (∀ (q' : String) (d' : Int) (L' U' : List String),
      (research_trace svc q' 0 d' L' U').invocations = [(0, d')]) := by
  have hgen : ∀ (q' : String) (l' : List String),
      generate_serp_queries svc q' 0 l' = [] := by
    intro q' l'
    rw [generate_serp_queries]
    exact pySlice_zero _
  refine ⟨fuel_suffices_for_depth svc (D.toNat + 1) q B D L U (by omega), hgen, ?_, ?_⟩
  · intro q' d' L' U'
    rw [deep_research_def, hgen]
    simp [mergeResults]
  · intro q' d' L' U'
    rw [research_trace_def, hgen, branches_trace]
    simp [Trace.cat, Trace.nil]

/-- C2, witness at breadth 1, depth 0. -/
theorem c2_witness :
    research_fuel svcOne 1 "q" 1 0 [] [] = some (deep_research svcOne "q" 1 0 [] []) ∧
    (∀ (q' : String) (l' : List String), generate_serp_queries svcOne q' 0 l' = []) ∧
    (∀ (q' : String) (d' : Int) (L' U' : List String),
      deep_research svcOne q' 0 d' L' U' = { learnings := [], visited_urls := [] }) ∧
    (∀ (q' : String) (d' : Int) (L' U' : List String),
      (research_trace svcOne q' 0 d' L' U').invocations = [(0, d')]) :=
  c2_termination svcOne "q" 1 0 [] [] (by decide) (by decide)

/-- C3: every invocation in the recursion tree rooted at `(B, D)` runs at
`(B >> k, D - k)` for its level `k`; every search call's `limit` equals
the breadth of the invocation performing it; a branch recurses exactly
when `depth - 1 > 0` — with breadth halved by floor division and depth
decremented — and otherwise returns the leaf result regardless of the
breadth value, its search performed with `limit = breadth`. -/
theorem c3_breadth_decay (svc : Services) (q : String) (B D : Int)
    (L U : List String) (hB : 0 ≤ B) :
    (∀ bd ∈ (research_trace svc q B D L U).invocations,
      ∃ k : ℕ, bd.2 = D - (k : Int) ∧ bd.1 = ((B.toNat >>> k : ℕ) : Int)) ∧
    (∀ s ∈ (research_trace svc q B D L U).searches,
      ∃ bd ∈ (research_trace svc q B D L U).invocations, s.2 = bd.1) ∧
    (∀ (b d : Int) (L' U' : List String) (serp : QueryEntry), 0 < d - 1 →
      handle_one svc b d L' U' serp =
        deep_research svc
          (nextQuery serp
            (process_serp_result svc serp.query (svc.search serp.query b) b).followUpQuestions)
          (Int.fdiv b 2) (d - 1)
          (L' ++ (process_serp_result svc serp.query (svc.search serp.query b) b).learnings)
          (U' ++ (svc.search serp.query b).data.map SearchItem.url)) ∧
    (∀ (b d : Int) (L' U' : List String) (serp : QueryEntry), d - 1 ≤ 0 →
      handle_one svc b d L' U' serp =
        { learnings :=
            L' ++ (process_serp_result svc serp.query (svc.search serp.query b) b).learnings
          visited_urls :=
            U' ++ (svc.search serp.query b).data.map SearchItem.url }) :=
  ⟨invocations_shape svc D.toNat q B D L U le_rfl hB,
   searches_use_invocation_breadth svc D.toNat q B D L U le_rfl,
   fun _ _ L' U' serp hd => handle_one_recurse svc L' U' serp hd,
   fun _ _ L' U' serp hd => handle_one_leaf svc L' U' serp hd⟩

/-- C3, witness at breadth 4, depth 3 (levels run at breadths 4, 2, 1). -/
theorem c3_witness :
    (∀ bd ∈ (research_trace svcOne "q" 4 3 [] []).invocations,
      ∃ k : ℕ, bd.2 = 3 - (k : Int) ∧ bd.1 = (((4 : Int).toNat >>> k : ℕ) : Int)) ∧
    (∀ s ∈ (research_trace svcOne "q" 4 3 [] []).searches,
      ∃ bd ∈ (research_trace svcOne "q" 4 3 [] []).invocations, s.2 = bd.1) ∧
    (∀ (b d : Int) (L' U' : List String) (serp : QueryEntry), 0 < d - 1 →
      handle_one svcOne b d L' U' serp =
        deep_research svcOne
          (nextQuery serp
            (process_serp_result svcOne serp.query (svcOne.search serp.query b) b).followUpQuestions)
          (Int.fdiv b 2) (d - 1)
          (L' ++ (process_serp_result svcOne serp.query (svcOne.search serp.query b) b).learnings)
          (U' ++ (svcOne.search serp.query b).data.map SearchItem.url)) ∧
    (∀ (b d : Int) (L' U' : List String) (serp : QueryEntry), d - 1 ≤ 0 →
      handle_one svcOne b d L' U' serp =
        { learnings :=
            L' ++ (process_serp_result svcOne serp.query (svcOne.search serp.query b) b).learnings
          visited_urls :=
            U' ++ (svcOne.search serp.query b).data.map SearchItem.url }) :=
  c3_breadth_decay svcOne "q" 4 3 [] [] (by decide)

/-- C4: when two branch results merged at step 4 both contain the same
learning string, that string appears exactly once in the learnings of
the returned `ResearchResult`, and likewise a shared URL appears exactly
once in `visited_urls` — the set comprehension at source lines 475-476
collapses duplicate strings. -/
theorem c4_merge_dedup (svc : Services) (q : String) (B D : Int)
    (L U : List String) (r1 r2 : ResearchResult) (s u : String)
    (h1 : r1 ∈ research_branches svc B D L U (generate_serp_queries svc q B L))
    (h2 : r2 ∈ research_branches svc B D L U (generate_serp_queries svc q B L))
    (hs1 : s ∈ r1.learnings) (hs2 : s ∈ r2.learnings)
    (hu1 : u ∈ r1.visited_urls) (hu2 : u ∈ r2.visited_urls) :
    (deep_research svc q B D L U).learnings.count s = 1 ∧
    (deep_research svc q B D L U).visited_urls.count u = 1 := by
  rw [research_branches_eq] at h1
  rw [deep_research_def]
  constructor
  · exact count_eq_one_of_nodup_mem (mergeResults_learnings_nodup _)
      (mem_mergeResults_learnings.mpr ⟨r1, h1, hs1⟩)
  · exact count_eq_one_of_nodup_mem (mergeResults_urls_nodup _)
      (mem_mergeResults_urls.mpr ⟨r1, h1, hu1⟩)

/-- C4, witness: two sibling branches that both discover learning `"x"`
and URL `"u1"`; each appears exactly once in the merged result. -/
theorem c4_witness :
    (deep_research svcTwo "q" 2 1 [] []).learnings.count "x" = 1 ∧
    (deep_research svcTwo "q" 2 1 [] []).visited_urls.count "u1" = 1 :=
  c4_merge_dedup svcTwo "q" 2 1 [] []
    (handle_one svcTwo 2 1 [] [] { query := "q1", researchGoal := "g1" })
    (handle_one svcTwo 2 1 [] [] { query := "q2", researchGoal := "g2" })
    "x" "u1"
    (by rw [research_branches_eq]
        simp [generate_serp_queries, svcTwo, pySlice])
    (by rw [research_branches_eq]
        simp [generate_serp_queries, svcTwo, pySlice])
    (by rw [handle_one_leaf svcTwo [] [] _ (by decide)]
        simp [process_serp_result, svcTwo])
    (by rw [handle_one_leaf svcTwo [] [] _ (by decide)]
        simp [process_serp_result, svcTwo])
    (by rw [handle_one_leaf svcTwo [] [] _ (by decide)]
        simp [process_serp_result, svcTwo])
    (by rw [handle_one_leaf svcTwo [] [] _ (by decide)]
        simp [process_serp_result, svcTwo])

/-- C5, counterexample: the per-branch fold at source lines 433-434 is
plain list concatenation, not a set union with deduplication.  A branch
of `deep_research svcDup "q" 1 1 ["a"] []` whose distiller returns the
already-accumulated learning `"a"` carries `["a", "a"]`: the branch
collection contains a duplicate before the sibling-level merge, so the
claim that it \"contains no duplicate strings even before the global
sibling-level merge\" is false. -/
theorem c5_counterexample :
    (handle_one svcDup 1 1 ["a"] [] { query := "q1", researchGoal := "g1" }) ∈
      research_branches svcDup 1 1 ["a"] [] (generate_serp_queries svcDup "q" 1 ["a"]) ∧
    (handle_one svcDup 1 1 ["a"] [] { query := "q1", researchGoal := "g1" }).learnings
      = ["a", "a"] ∧
    ¬ (handle_one svcDup 1 1 ["a"] []
        { query := "q1", researchGoal := "g1" }).learnings.Nodup := by
  have h : (handle_one svcDup 1 1 ["a"] [] { query := "q1", researchGoal := "g1" }).learnings
      = ["a", "a"] := by
    rw [handle_one_leaf svcDup ["a"] [] _ (by decide)]
    simp [process_serp_result, svcDup]
  refine ⟨?_, h, by rw [h]; simp⟩
  rw [research_branches_eq]
  simp [generate_serp_queries, svcDup, pySlice]

/-- C5, amended: the per-branch fold is list concatenation
(`branch_learnings = learnings ++ distilled.learnings`,
`branch_urls = visited_urls ++ search_result.urls`), which agrees with
set union on membership but performs no deduplication, so a branch
collection may contain duplicates; deduplication happens only once, at
the sibling-level merge, whose output contains no duplicate strings. -/
theorem c5_fold_is_concat (svc : Services) (b d : Int) (L U : List String)
    (serp : QueryEntry) (hd : d - 1 ≤ 0) :
    (handle_one svc b d L U serp).learnings =
      L ++ (process_serp_result svc serp.query (svc.search serp.query b) b).learnings ∧
    (handle_one svc b d L U serp).visited_urls =
      U ++ (svc.search serp.query b).data.map SearchItem.url ∧
    (∀ x, x ∈ (handle_one svc b d L U serp).learnings ↔
      x ∈ L ∨ x ∈ (process_serp_result svc serp.query (svc.search serp.query b) b).learnings) ∧
    (∀ x, x ∈ (handle_one svc b d L U serp).visited_urls ↔
      x ∈ U ∨ x ∈ (svc.search serp.query b).data.map SearchItem.url) ∧
    (∀ (q' : String) (B' D' : Int) (L' U' : List String),
      (deep_research svc q' B' D' L' U').learnings.Nodup ∧
      (deep_research svc q' B' D' L' U').visited_urls.Nodup) := by
  rw [handle_one_leaf svc L U serp hd]
  refine ⟨rfl, rfl, fun x => by simp, fun x => by simp, fun q' B' D' L' U' => ?_⟩
  rw [deep_research]
  exact ⟨mergeResults_learnings_nodup _, mergeResults_urls_nodup _⟩

/-- C5, witness for the amended theorem: the duplicate-carrying branch of
the counterexample satisfies the concatenation equations, and the final
merged result is duplicate-free. -/
theorem c5_witness :
    (handle_one svcDup 1 1 ["a"] [] { query := "q1", researchGoal := "g1" }).learnings =
      ["a"] ++ (process_serp_result svcDup "q1"
        (svcDup.search "q1" 1) 1).learnings ∧
    (deep_research svcDup "q" 1 1 ["a"] []).learnings.Nodup :=
  ⟨(c5_fold_is_concat svcDup 1 1 ["a"] []
      { query := "q1", researchGoal := "g1" } (by decide)).1,
   ((c5_fold_is_concat svcDup 1 1 ["a"] []
      { query := "q1", researchGoal := "g1" } (by decide)).2.2.2.2 "q" 1 1 ["a"] []).1⟩

/-- C6, counterexample: `process_serp_result` applies no truncation, so
when the completion service returns four learnings against a requested
maximum of three, the returned list has length 4 > 3; the claim that the
result length is at most `num_learnings` for every service response is
false. -/
theorem c6_counterexample :
    (process_serp_result svcFour "q" { data := [] } 3).learnings.length = 4 ∧
    ¬ (process_serp_result svcFour "q" { data := [] } 3).learnings.length ≤ 3 := by
  constructor <;> simp [process_serp_result, svcFour]

/-- C6, amended: `process_serp_result` returns the service's learnings
and follow-up questions unmodified (the prompt requests at most
`num_learnings`, but nothing enforces it); consequently the returned
list is bounded by `n` exactly when the service's response is. -/
theorem c6_no_truncation (svc : Services) (q : String) (sr : SearchResult)
    (n : Int) (m : ℕ) :
    (process_serp_result svc q sr n).learnings = (svc.distill q sr n).learnings ∧
    (process_serp_result svc q sr n).followUpQuestions =
      (svc.distill q sr n).followUpQuestions ∧
    ((process_serp_result svc q sr n).learnings.length ≤ m ↔
      (svc.distill q sr n).learnings.length ≤ m) :=
  ⟨rfl, rfl, Iff.rfl⟩

/-- C7: if the planner yields zero queries for this invocation's input,
`deep_research` returns the empty result: no search call, no distill
call, no recursive invocation occur in its subtree — only its own
planner call — and this is a normal return, not an error. -/
theorem c7_zero_queries (svc : Services) (q : String) (B D : Int)
    (L U : List String) (h : generate_serp_queries svc q B L = []) :
    deep_research svc q B D L U = { learnings := [], visited_urls := [] } ∧
    (research_trace svc q B D L U).searches = [] ∧
    (research_trace svc q B D L U).distills = [] ∧
    (research_trace svc q B D L U).invocations = [(B, D)] ∧
    (research_trace svc q B D L U).plans = [(q, B)] := by
  have htr : research_trace svc q B D L U =
      Trace.cat
        { plans := [(q, B)], searches := [], distills := [], invocations := [(B, D)] }
        Trace.nil := by
    rw [research_trace_def, h, branches_trace]
  refine ⟨?_, ?_, ?_, ?_, ?_⟩
  · rw [deep_research_def, h]
    simp [mergeResults]
  all_goals rw [htr]; simp [Trace.cat, Trace.nil]

/-- C7, witness: an oracle whose planner always returns zero queries. -/
theorem c7_witness :
    deep_research svcNone "q" 3 2 ["a"] ["b"] = { learnings := [], visited_urls := [] } ∧
    (research_trace svcNone "q" 3 2 ["a"] ["b"]).searches = [] ∧
    (research_trace svcNone "q" 3 2 ["a"] ["b"]).distills = [] ∧
    (research_trace svcNone "q" 3 2 ["a"] ["b"]).invocations = [(3, 2)] ∧
    (research_trace svcNone "q" 3 2 ["a"] ["b"]).plans = [("q", 3)] :=
  c7_zero_queries svcNone "q" 3 2 ["a"] ["b"]
    (by simp [generate_serp_queries, svcNone, pySlice])

/-- C8: within one invocation, `completed_queries` starts at 0
(dataclass default), `total_queries` is set to the number of planned
queries at this invocation's level (line 401), each branch performs
exactly one increment (line 444 on the recursion path, line 463 on the
leaf path, and recursive children own fresh progress objects), so over
the invocation's lifetime — any interleaving of at most
`invocation_total_increments` completed increments — the counter is
non-decreasing and never exceeds `total_queries`. -/
theorem c8_progress_monotone (svc : Services) (q : String) (B D : Int)
    (L : List String) :
    completed_after 0 = 0 ∧
    (∀ j k : ℕ, j ≤ k → completed_after j ≤ completed_after k) ∧
    total_queries_init svc q B L = (generate_serp_queries svc q B L).length ∧
    invocation_total_increments svc q B D L = total_queries_init svc q B L ∧
    (∀ k : ℕ, k ≤ invocation_total_increments svc q B D L →
      completed_after k ≤ total_queries_init svc q B L) := by
  refine ⟨rfl, ?_, rfl, invocation_total_increments_eq svc q B D L, ?_⟩
  · intro j k hjk
    rw [completed_after_eq, completed_after_eq]
    exact hjk
  · intro k hk
    rw [completed_after_eq]
    rw [invocation_total_increments_eq svc q B D L] at hk
    exact hk

/-- C8, witness: with two planned queries, after both branch completions
the counter equals 2 and stays within `total_queries = 2`. -/
theorem c8_witness :
    completed_after 1 ≤ completed_after 2 ∧
    completed_after 2 ≤ total_queries_init svcTwo "q" 2 [] :=
  ⟨(c8_progress_monotone svcTwo "q" 2 1 []).2.1 1 2 (by decide),
   (c8_progress_monotone svcTwo "q" 2 1 []).2.2.2.2 2
     (by rw [invocation_total_increments_eq, total_queries_init]
         simp [generate_serp_queries, svcTwo, pySlice])⟩

/-- C9: `generate_serp_queries` requested `num_queries = n ≥ 0` returns
at most `n` entries: when the completion service returns more than `n`
the result is truncated to the first `n`, and when it returns at most
`n` all entries are accepted unchanged. -/
theorem c9_plan_truncates (svc : Services) (q : String) (l : List String)
    (n : Int) (hn : 0 ≤ n) :
    ((generate_serp_queries svc q n l).length : Int) ≤ n ∧
    (((svc.planQueries q n l).length : Int) ≤ n →
      generate_serp_queries svc q n l = svc.planQueries q n l) ∧
    (n ≤ ((svc.planQueries q n l).length : Int) →
      generate_serp_queries svc q n l = (svc.planQueries q n l).take n.toNat ∧
      ((generate_serp_queries svc q n l).length : Int) = n) := by
  rw [generate_serp_queries, pySlice_of_nonneg hn]
  refine ⟨?_, ?_, ?_⟩
  · have := List.length_take n.toNat (svc.planQueries q n l)
    omega
  · intro h
    exact List.take_of_length_le (by omega)
  · intro h
    have := List.length_take n.toNat (svc.planQueries q n l)
    exact ⟨rfl, by omega⟩

/-- C9, witness: requesting 1 query from a service that returns 2
truncates to the first entry. -/
theorem c9_witness :
    ((generate_serp_queries svcTwo "q" 1 []).length : Int) ≤ 1 ∧
    ((generate_serp_queries svcTwo "q" 1 []).length : Int) = 1 ∧
    generate_serp_queries svcTwo "q" 1 [] = (svcTwo.planQueries "q" 1 []).take 1 :=
  ⟨(c9_plan_truncates svcTwo "q" [] 1 (by decide)).1,
   ((c9_plan_truncates svcTwo "q" [] 1 (by decide)).2.2 (by simp [svcTwo])).2,
   ((c9_plan_truncates svcTwo "q" [] 1 (by decide)).2.2 (by simp [svcTwo])).1⟩

/-- C10: when `depth ≤ 1` — including `depth = 0` and negative depth —
`deep_research` still performs one full level of work: it makes its one
planner call, then one search and one distillation per planned query,
and every branch takes the leaf path (the only depth test is
`depth - 1 > 0`), so no recursive invocation occurs. -/
theorem c10_shallow_depth (svc : Services) (q : String) (B : Int)
    (L U : List String) (D : Int) (hD : D ≤ 1) :
    (research_trace svc q B D L U).plans = [(q, B)] ∧
    (research_trace svc q B D L U).invocations = [(B, D)] ∧
    (research_trace svc q B D L U).searches =
      (generate_serp_queries svc q B L).map (fun serp => (serp.query, B)) ∧
    (research_trace svc q B D L U).distills =
      (generate_serp_queries svc q B L).map (fun serp => (serp.query, B)) ∧
    (∀ serp : QueryEntry, handle_one svc B D L U serp =
      { learnings :=
          L ++ (process_serp_result svc serp.query (svc.search serp.query B) B).learnings
        visited_urls :=
          U ++ (svc.search serp.query B).data.map SearchItem.url }) ∧
    deep_research svc q B D L U =
      mergeResults ((generate_serp_queries svc q B L).map (fun serp =>
        { learnings :=
            L ++ (process_serp_result svc serp.query (svc.search serp.query B) B).learnings
          visited_urls :=
            U ++ (svc.search serp.query B).data.map SearchItem.url })) := by
  have hleaf : ∀ serp : QueryEntry, handle_one svc B D L U serp =
      { learnings :=
          L ++ (process_serp_result svc serp.query (svc.search serp.query B) B).learnings
        visited_urls :=
          U ++ (svc.search serp.query B).data.map SearchItem.url } :=
    fun serp => handle_one_leaf svc L U serp (by omega)
  have htr : research_trace svc q B D L U =
      Trace.cat
        { plans := [(q, B)], searches := [], distills := [], invocations := [(B, D)] }
        { plans := []
          searches := (generate_serp_queries svc q B L).map (fun serp => (serp.query, B))
          distills := (generate_serp_queries svc q B L).map (fun serp => (serp.query, B))
          invocations := [] } := by
    rw [research_trace_def, branches_trace_leaf svc L U _ (by omega)]
  refine ⟨?_, ?_, ?_, ?_, hleaf, ?_⟩
  · rw [htr]; simp [Trace.cat]
  · rw [htr]; simp [Trace.cat]
  · rw [htr]; simp [Trace.cat]
  · rw [htr]; simp [Trace.cat]
  · rw [deep_research_def]
    congr 1
    exact List.map_congr_left (fun serp _ => hleaf serp)

/-- C10, witness at the negative depth  -1: one full level of work, leaf
branches only. -/
theorem c10_witness :
    (research_trace svcOne "q" 2 (-1) ["a"] ["b"]).plans = [("q", 2)] ∧
    (research_trace svcOne "q" 2 (-1) ["a"] ["b"]).invocations = [(2, -1)] ∧
    (research_trace svcOne "q" 2 (-1) ["a"] ["b"]).searches =
      (generate_serp_queries svcOne "q" 2 ["a"]).map (fun serp => (serp.query, 2)) ∧
    (research_trace svcOne "q" 2 (-1) ["a"] ["b"]).distills =
      (generate_serp_queries svcOne "q" 2 ["a"]).map (fun serp => (serp.query, 2)) ∧
    (∀ serp : QueryEntry, handle_one svcOne 2 (-1) ["a"] ["b"] serp =
      { learnings :=
          ["a"] ++ (process_serp_result svcOne serp.query (svcOne.search serp.query 2) 2).learnings
        visited_urls :=
          ["b"] ++ (svcOne.search serp.query 2).data.map SearchItem.url }) ∧
    deep_research svcOne "q" 2 (-1) ["a"] ["b"] =
      mergeResults ((generate_serp_queries svcOne "q" 2 ["a"]).map (fun serp =>
        { learnings :=
            ["a"] ++ (process_serp_result svcOne serp.query (svcOne.search serp.query 2) 2).learnings
          visited_urls :=
            ["b"] ++ (svcOne.search serp.query 2).data.map SearchItem.url })) :=
  c10_shallow_depth svcOne "q" 2 ["a"] ["b"] (-1) (by decide)

end DeepResearch
